import Mathlib

/-! Shallow embedding of `examples/online_boutique/frontend/frontend.go`:
the frontend server constructor `NewServer`, its environment detection,
platform-profile derivation, dependency resolution, route table and
middleware chain.  Effects (environment variable, the name-resolution
probe, hostname lookup, the registry resolutions) are passed in
explicitly as a `WeaverEnv` record of their results; errors are
`Except GoError`. -/

deriving instance DecidableEq for Except

namespace Frontend

/-- Go `error` values, carried as strings. -/
abbrev GoError := String

/-- Constant block of frontend.go: cookie max age, 60*60*48 seconds. -/
def cookieMaxAge : Nat := 60 * 60 * 48

/-- Cookie name constants of frontend.go. -/
def cookiePrefixC : String := "shop_"

/-- Session cookie name, `cookiePrefix + "session-id"`. -/
def cookieSessionID : String := cookiePrefixC ++ "session-id"

/-- Currency cookie name, `cookiePrefix + "currency"`. -/
def cookieCurrency : String := cookiePrefixC ++ "currency"

/-- The `validEnvs` package variable: `[]string{"local", "gcp"}`. -/
def validEnvs : List String := ["local", "gcp"]

/-- Embedding of `strings.ToLower` over the char-list model of strings:
lowercase every character. -/
def strToLower (s : String) : String := String.mk (s.data.map Char.toLower)

/-- Modelled from the spec: the helper `stringinSlice` is referenced by
frontend.go line 121 but defined in a sibling file of the package that is
not part of the provided source.  Section 4.2 of the spec describes it as
membership of the explicit value in the recognized set, section 8 item 2
requires any casing of a recognized value (e.g. `ENV_PLATFORM=GCP`) to be
accepted, and section 4.2 step 3 lowercases the final label afterwards;
so membership is case-insensitive comparison against the slice. -/
def stringinSlice (list : List String) (s : String) : Bool :=
  list.any (fun a => strToLower a == strToLower s)

/-- The `platformDetails` struct: css class and provider name. -/
structure platformDetails where
  css : String
  provider : String
deriving DecidableEq, Repr

/-- Method `(*platformDetails).setPlatformDetails`, written as a pure
function from the environment label to the resulting struct. -/
def setPlatformDetails (env : String) : platformDetails :=
  if env = "gcp" then
    { css := "gcp-platform", provider := "Google Cloud" }
  else
    { css := "local", provider := "local" }

/-- Opaque handle for `productcatalogservice.T`. -/
structure ProductCatalogT where
  hid : Nat
deriving DecidableEq, Repr

/-- Opaque handle for `currencyservice.T`. -/
structure CurrencyT where
  hid : Nat
deriving DecidableEq, Repr

/-- Opaque handle for `cartservice.T`. -/
structure CartT where
  hid : Nat
deriving DecidableEq, Repr

/-- Opaque handle for `recommendationservice.T`. -/
structure RecommendationT where
  hid : Nat
deriving DecidableEq, Repr

/-- Opaque handle for `checkoutservice.T`. -/
structure CheckoutT where
  hid : Nat
deriving DecidableEq, Repr

/-- Opaque handle for `shippingservice.T`. -/
structure ShippingT where
  hid : Nat
deriving DecidableEq, Repr

/-- Opaque handle for `adservice.T`. -/
structure AdT where
  hid : Nat
deriving DecidableEq, Repr

/-- A read-only file collection (the embedded `static/*` bundle and its
subtrees): an association list from file name to file bytes. -/
abbrev FileSys := List (String × String)

/-- Handlers that can sit in a route-table entry: the named method
handlers of `Server` (their bodies live in other files and are opaque
here), inline fixed-body handlers, `http.FileServer`, `http.StripPrefix`
and `weaver.InstrumentHandler` wrappers. -/
inductive RouteHandler where
  | named (name : String)
  | fixedBody (body : String)
  | fileServer (fsys : FileSys)
  | stripServe (pre : String) (inner : RouteHandler)
  | instrumented (label : String) (inner : RouteHandler)
deriving DecidableEq, Repr

/-- One entry of the route table: the registered pattern, the methods
restriction (empty list means no `.Methods` call was made), whether it
was registered via `PathPrefix`, and its handler. -/
structure Route where
  pattern : String
  methods : List String
  subtree : Bool
  handler : RouteHandler
deriving DecidableEq, Repr

/-- The composed request handler: the mux router wrapped by the
middleware layers of frontend.go lines 181-186. -/
inductive HttpHandler where
  | muxRouter (routes : List Route)
  | ensureSessionID (inner : HttpHandler)
  | logHandler (inner : HttpHandler)
  | otelHandler (op : String) (inner : HttpHandler)
deriving DecidableEq, Repr

/-- The `Server` struct of frontend.go (the `root weaver.Instance` field
carries no data relevant to this core and is omitted). -/
structure Server where
  handler : HttpHandler
  platform : platformDetails
  hostname : String
  catalogService : ProductCatalogT
  currencyService : CurrencyT
  cartService : CartT
  recommendationService : RecommendationT
  checkoutService : CheckoutT
  shippingService : ShippingT
  adService : AdT
deriving DecidableEq, Repr

/-- The results of the effectful operations `NewServer` performs, passed
in explicitly: `os.Getenv("ENV_PLATFORM")`, `net.LookupHost`,
`os.Hostname`, the seven `weaver.Get` resolutions, and the embedded
`static/*` bundle. -/
structure WeaverEnv where
  envPlatform : String
  lookupHost : Except GoError (List String)
  hostnameRes : Except GoError String
  getCatalog : Except GoError ProductCatalogT
  getCurrency : Except GoError CurrencyT
  getCart : Except GoError CartT
  getRecommendation : Except GoError RecommendationT
  getCheckout : Except GoError CheckoutT
  getShipping : Except GoError ShippingT
  getAd : Except GoError AdT
  staticBundle : FileSys
deriving DecidableEq, Repr

/-- Step 1 of environment detection (frontend.go lines 119-124): read
`ENV_PLATFORM`; if empty or not a valid env, fall back to "local". -/
def envStep1 (envPlatform : String) : String :=
  if envPlatform = "" || !(stringinSlice validEnvs envPlatform) then "local"
  else envPlatform

/-- Environment detection (frontend.go lines 119-130): step 1, then the
GCP autodetection probe.  The source condition is
`err == nil && len(addrs) >= 0`, kept literally. -/
def detectEnv (envPlatform : String) (lookupRes : Except GoError (List String)) :
    String :=
  match lookupRes with
  | .ok addrs => if addrs.length ≥ 0 then "gcp" else envStep1 envPlatform
  | .error _ => envStep1 envPlatform

/-- HTTP method constants used by the route registrations. -/
def MethodGet : String := "GET"

/-- HTTP method constant HEAD. -/
def MethodHead : String := "HEAD"

/-- HTTP method constant POST. -/
def MethodPost : String := "POST"

/-- Fixed body of the `/robots.txt` handler. -/
def robotsBody : String := "User-agent: *\nDisallow: /"

/-- strings-level helper for `http.StripPrefix`: if `pre` leads `p`,
return `p` with `pre` removed, otherwise nothing (the wrapped server
responds 404 in that case). -/
def cutLeading (pre p : String) : Option String :=
  if pre.data.isPrefixOf p.data then some (String.mk (p.data.drop pre.data.length))
  else none

/-- Semantics of `fs.Sub(fsys, dir)`: the subtree of `fsys` rooted at
`dir`, each name stripped of the leading `dir ++ "/"`. -/
def fsSub (fsys : FileSys) (dir : String) : FileSys :=
  fsys.filterMap (fun e => (cutLeading (dir ++ "/") e.1).map (fun n => (n, e.2)))

/-- Call-shaped wrapper for `fs.Sub` whose error `NewServer` checks at
lines 155-158.  For the embedded bundle and the constant valid path
name "static" the lookup of the subtree cannot fail, so the result is
always `ok`; the check in `NewServer` mirrors the source anyway. -/
def fsSubE (fsys : FileSys) (dir : String) : Except GoError FileSys :=
  .ok (fsSub fsys dir)

/-- The route table built by `NewServer` (frontend.go lines 159-178), in
registration order.  `weaver.InstrumentHandler` wrapping is the
`instrumented` constructor; `staticHTML` is the subtree returned by
`fs.Sub(staticFS, "static")`. -/
def boutiqueRoutes (staticHTML : FileSys) : List Route :=
  [ { pattern := "/", methods := [MethodGet, MethodHead], subtree := false,
      handler := .instrumented "home" (.named "homeHandler") },
    { pattern := "/product/{id}", methods := [MethodGet, MethodHead], subtree := false,
      handler := .instrumented "product" (.named "productHandler") },
    { pattern := "/cart", methods := [MethodGet, MethodHead], subtree := false,
      handler := .instrumented "cart_view" (.named "viewCartHandler") },
    { pattern := "/cart", methods := [MethodPost], subtree := false,
      handler := .instrumented "cart_add" (.named "addToCartHandler") },
    { pattern := "/cart/empty", methods := [MethodPost], subtree := false,
      handler := .instrumented "cart_empty" (.named "emptyCartHandler") },
    { pattern := "/setCurrency", methods := [MethodPost], subtree := false,
      handler := .instrumented "setcurrency" (.named "setCurrencyHandler") },
    { pattern := "/logout", methods := [MethodGet], subtree := false,
      handler := .instrumented "logout" (.named "logoutHandler") },
    { pattern := "/cart/checkout", methods := [MethodPost], subtree := false,
      handler := .instrumented "cart_checkout" (.named "placeOrderHandler") },
    { pattern := "/static/", methods := [], subtree := true,
      handler := .instrumented "static"
        (.stripServe "/static/" (.fileServer staticHTML)) },
    { pattern := "/robots.txt", methods := [], subtree := false,
      handler := .instrumented "robots" (.fixedBody robotsBody) },
    { pattern := "/healthz", methods := [], subtree := false,
      handler := .fixedBody "ok" } ]

/-- The function `NewServer` (frontend.go lines 85-190).  Resolves the
seven downstream services in source order with early return on the
first error, detects the environment, derives the platform profile from
the lowercased label, looks up the hostname with the "unknown"
fallback, mounts the static subtree, builds the route table and wraps
the router in session-id, logging and tracing middleware. -/
def NewServer (we : WeaverEnv) : Except GoError Server :=
  match we.getCatalog with
  | .error err => .error err
  | .ok catalogService =>
  match we.getCurrency with
  | .error err => .error err
  | .ok currencyService =>
  match we.getCart with
  | .error err => .error err
  | .ok cartService =>
  match we.getRecommendation with
  | .error err => .error err
  | .ok recommendationService =>
  match we.getCheckout with
  | .error err => .error err
  | .ok checkoutService =>
  match we.getShipping with
  | .error err => .error err
  | .ok shippingService =>
  match we.getAd with
  | .error err => .error err
  | .ok adService =>
  let env := detectEnv we.envPlatform we.lookupHost
  let platform := setPlatformDetails (strToLower env)
  let hostname :=
    match we.hostnameRes with
    | .ok h => h
    | .error _ => "unknown"
  match fsSubE we.staticBundle "static" with
  | .error err => .error err
  | .ok staticHTML =>
  let handler := HttpHandler.otelHandler "http"
    (.logHandler (.ensureSessionID (.muxRouter (boutiqueRoutes staticHTML))))
  .ok { handler := handler, platform := platform, hostname := hostname,
        catalogService := catalogService, currencyService := currencyService,
        cartService := cartService, recommendationService := recommendationService,
        checkoutService := checkoutService, shippingService := shippingService,
        adService := adService }

/-- Route table reachable from a composed handler: peel the middleware
wrappers down to the mux router. -/
def HttpHandler.routesOf : HttpHandler → List Route
  | .muxRouter rs => rs
  | .ensureSessionID h => h.routesOf
  | .logHandler h => h.routesOf
  | .otelHandler _ h => h.routesOf

/-- Instrumentation label of a route handler, when the handler is an
`InstrumentHandler` wrapper. -/
def instrLabel : RouteHandler → Option String
  | .instrumented label _ => some label
  | _ => none

/-- Response body a route handler produces for a request path, for the
fragments whose behavior lives in this file: fixed-body handlers,
the file server, its strip/instrument wrappers.  The named page
handlers are implemented elsewhere and give no body here. -/
def RouteHandler.serve : RouteHandler → String → Option String
  | .named _, _ => none
  | .fixedBody b, _ => some b
  | .fileServer fsys, p => fsys.lookup p
  | .stripServe pre inner, p =>
    match cutLeading pre p with
    | some rest => inner.serve rest
    | none => none
  | .instrumented _ inner, p => inner.serve p

/-- The Server record a successful run of `NewServer` builds, given the
seven resolved handles: used to state what `NewServer` returns in the
`ok` case. -/
def mkServer (we : WeaverEnv) (c : ProductCatalogT) (cu : CurrencyT) (ca : CartT)
    (re : RecommendationT) (ch : CheckoutT) (sh : ShippingT) (ad : AdT) : Server :=
  { handler := HttpHandler.otelHandler "http"
      (.logHandler (.ensureSessionID (.muxRouter
        (boutiqueRoutes (fsSub we.staticBundle "static"))))),
    platform := setPlatformDetails (strToLower (detectEnv we.envPlatform we.lookupHost)),
    hostname := match we.hostnameRes with | .ok h => h | .error _ => "unknown",
    catalogService := c, currencyService := cu, cartService := ca,
    recommendationService := re, checkoutService := ch, shippingService := sh,
    adService := ad }

/-- Concrete environment in which every effect succeeds except the
metadata probe, used by the witness theorems. -/
def weAllOk : WeaverEnv :=
  { envPlatform := "local", lookupHost := .error "lookup failed: no such host",
    hostnameRes := .ok "frontend-0",
    getCatalog := .ok ⟨1⟩, getCurrency := .ok ⟨2⟩, getCart := .ok ⟨3⟩,
    getRecommendation := .ok ⟨4⟩, getCheckout := .ok ⟨5⟩,
    getShipping := .ok ⟨6⟩, getAd := .ok ⟨7⟩,
    staticBundle := [("static/a.txt", "alpha"), ("templates/home.html", "home")] }

/-- The server `NewServer` builds from `weAllOk`. -/
def serverAllOk : Server := mkServer weAllOk ⟨1⟩ ⟨2⟩ ⟨3⟩ ⟨4⟩ ⟨5⟩ ⟨6⟩ ⟨7⟩

/-- Environment where the currency and cart resolutions both fail. -/
def weCurrencyFail : WeaverEnv :=
  { weAllOk with getCurrency := .error "currency down", getCart := .error "cart down" }

/-- Environment where the catalog resolution fails. -/
def weCatalogFail : WeaverEnv := { weAllOk with getCatalog := .error "catalog down" }

/-- Environment where the hostname lookup fails. -/
def weHostFail : WeaverEnv := { weAllOk with hostnameRes := .error "hostname: not found" }

/-- Environment with `ENV_PLATFORM=GCP` (upper-cased) and a failing probe. -/
def weGcpCased : WeaverEnv := { weAllOk with envPlatform := "GCP" }

/-- Environment with an unrecognized `ENV_PLATFORM` and a failing probe. -/
def weBadEnv : WeaverEnv := { weAllOk with envPlatform := "aws" }

/-- Characterization of a successful `NewServer` run: all seven
resolutions returned handles, and the result is `mkServer` over them. -/
theorem newServer_eq_ok (we : WeaverEnv) (s : Server) :
    NewServer we = .ok s ↔
      ∃ c cu ca re ch sh ad,
        we.getCatalog = .ok c ∧ we.getCurrency = .ok cu ∧ we.getCart = .ok ca ∧
        we.getRecommendation = .ok re ∧ we.getCheckout = .ok ch ∧
        we.getShipping = .ok sh ∧ we.getAd = .ok ad ∧
        s = mkServer we c cu ca re ch sh ad := by
  obtain ⟨ep, lh, hn, gc, gcu, gca, gre, gch, gsh, gad, sb⟩ := we
  cases gc <;> cases gcu <;> cases gca <;> cases gre <;> cases gch <;> cases gsh <;>
    cases gad <;> simp [NewServer, mkServer, fsSubE, eq_comm]

/-- Every construction error of `NewServer` is the error of one of the
seven dependency resolutions (the static subtree mount in this model
cannot fail, and nothing else in the constructor errors). -/
theorem newServer_error_from_gets (we : WeaverEnv) (e : GoError) :
    NewServer we = .error e →
      we.getCatalog = .error e ∨ we.getCurrency = .error e ∨ we.getCart = .error e ∨
      we.getRecommendation = .error e ∨ we.getCheckout = .error e ∨
      we.getShipping = .error e ∨ we.getAd = .error e := by
  obtain ⟨ep, lh, hn, gc, gcu, gca, gre, gch, gsh, gad, sb⟩ := we
  cases gc <;> cases gcu <;> cases gca <;> cases gre <;> cases gch <;> cases gsh <;>
    cases gad <;> simp [NewServer, fsSubE] <;> tauto

/-- Stripping a leading string from its own extension: the semantics
of `http.StripPrefix` on a path that carries the stripped part. -/
theorem cutLeading_append (pre n : String) : cutLeading pre (pre ++ n) = some n := by
  have hd : (pre ++ n).data = pre.data ++ n.data := rfl
  unfold cutLeading
  rw [hd]
  rw [if_pos]
  · rw [List.drop_left]
  · rw [List.isPrefixOf_iff_prefix]
    exact List.prefix_append pre.data n.data

/-- Claim C1: during environment detection, a metadata-host lookup that
returns without error — with any number of addresses, including zero —
sets the environment label to "gcp", overriding whatever label step 1
derived from ENV_PLATFORM; a lookup error retains the step-1 label. -/
theorem probe_success_overrides (ep : String) (res : Except GoError (List String)) :
    (∀ addrs, res = .ok addrs → detectEnv ep res = "gcp") ∧
    (∀ e, res = .error e → detectEnv ep res = envStep1 ep) := by
  constructor
  · rintro addrs rfl
    simp [detectEnv]
  · rintro e rfl
    simp [detectEnv]

/-- Witness for claim C1, at the explicit `ENV_PLATFORM=local` with a
zero-address successful probe, and at a failing probe. -/
theorem probe_success_overrides_witness :
    detectEnv "local" (.ok []) = "gcp" ∧
    detectEnv "local" (.error "lookup failed") = envStep1 "local" :=
  ⟨(probe_success_overrides "local" (.ok [])).1 [] rfl,
   (probe_success_overrides "local" (.error "lookup failed")).2 "lookup failed" rfl⟩

/-- Claim C2: the seven downstream services are wired all-or-nothing: a
failure of any one resolution makes `NewServer` return an error (no
server value), and a non-error result carries exactly the seven
resolved handles. -/
theorem newServer_all_or_nothing (we : WeaverEnv) :
    ((∃ e, we.getCatalog = .error e) ∨ (∃ e, we.getCurrency = .error e) ∨
     (∃ e, we.getCart = .error e) ∨ (∃ e, we.getRecommendation = .error e) ∨
     (∃ e, we.getCheckout = .error e) ∨ (∃ e, we.getShipping = .error e) ∨
     (∃ e, we.getAd = .error e) → ∃ e, NewServer we = .error e) ∧
    (∀ s, NewServer we = .ok s →
      we.getCatalog = .ok s.catalogService ∧
      we.getCurrency = .ok s.currencyService ∧
      we.getCart = .ok s.cartService ∧
      we.getRecommendation = .ok s.recommendationService ∧
      we.getCheckout = .ok s.checkoutService ∧
      we.getShipping = .ok s.shippingService ∧
      we.getAd = .ok s.adService) := by
  constructor
  · intro h
    rcases hres : NewServer we with e | s
    · exact ⟨e, rfl⟩
    · exfalso
      obtain ⟨c, cu, ca, re, ch, sh, ad, hc, hcu, hca, hre, hch, hsh, had, -⟩ :=
        (newServer_eq_ok we s).1 hres
      rcases h with ⟨e,h⟩|⟨e,h⟩|⟨e,h⟩|⟨e,h⟩|⟨e,h⟩|⟨e,h⟩|⟨e,h⟩ <;> simp_all
  · intro s hs
    obtain ⟨c, cu, ca, re, ch, sh, ad, hc, hcu, hca, hre, hch, hsh, had, rfl⟩ :=
      (newServer_eq_ok we s).1 hs
    simp_all [mkServer]

/-- Witness for claim C2: a failing catalog resolution aborts
construction, and the fully-resolved environment populates all seven
handle fields. -/
theorem newServer_all_or_nothing_witness :
    (∃ e, NewServer weCatalogFail = .error e) ∧
    (weAllOk.getCatalog = .ok serverAllOk.catalogService ∧
     weAllOk.getCurrency = .ok serverAllOk.currencyService ∧
     weAllOk.getCart = .ok serverAllOk.cartService ∧
     weAllOk.getRecommendation = .ok serverAllOk.recommendationService ∧
     weAllOk.getCheckout = .ok serverAllOk.checkoutService ∧
     weAllOk.getShipping = .ok serverAllOk.shippingService ∧
     weAllOk.getAd = .ok serverAllOk.adService) :=
  ⟨(newServer_all_or_nothing weCatalogFail).1 (Or.inl ⟨"catalog down", rfl⟩),
   (newServer_all_or_nothing weAllOk).2 serverAllOk rfl⟩

/-- Claim C3: for ENV_PLATFORM equal to "gcp" in any casing and a
failing metadata probe, the final (lowercased) environment label is
"gcp" and the platform profile of the constructed server is
css "gcp-platform", provider "Google Cloud". -/
theorem env_gcp_any_casing (we : WeaverEnv) (e : GoError)
    (h1 : strToLower we.envPlatform = "gcp") (h2 : we.lookupHost = .error e) :
    strToLower (detectEnv we.envPlatform we.lookupHost) = "gcp" ∧
    (∀ s, NewServer we = .ok s →
      s.platform = { css := "gcp-platform", provider := "Google Cloud" }) := by
  have hne : we.envPlatform ≠ "" := by
    intro h0
    rw [h0] at h1
    exact absurd h1 (by decide)
  have hmem : stringinSlice validEnvs we.envPlatform = true := by
    unfold stringinSlice validEnvs
    simp only [List.any_cons, List.any_nil, h1]
    decide
  have hstep : envStep1 we.envPlatform = we.envPlatform := by
    simp [envStep1, hne, hmem]
  have hdet : detectEnv we.envPlatform we.lookupHost = we.envPlatform := by
    rw [h2]
    simp [detectEnv, hstep]
  refine ⟨by rw [hdet, h1], ?_⟩
  intro s hs
  obtain ⟨c, cu, ca, re, ch, sh, ad, -, -, -, -, -, -, -, rfl⟩ :=
    (newServer_eq_ok we s).1 hs
  simp [mkServer, hdet, h1, setPlatformDetails]

/-- Witness for claim C3, at `ENV_PLATFORM=GCP` with a failing probe. -/
theorem env_gcp_any_casing_witness :
    strToLower (detectEnv weGcpCased.envPlatform weGcpCased.lookupHost) = "gcp" ∧
    (mkServer weGcpCased ⟨1⟩ ⟨2⟩ ⟨3⟩ ⟨4⟩ ⟨5⟩ ⟨6⟩ ⟨7⟩).platform
      = { css := "gcp-platform", provider := "Google Cloud" } :=
  ⟨(env_gcp_any_casing weGcpCased "lookup failed: no such host" (by decide) rfl).1,
   (env_gcp_any_casing weGcpCased "lookup failed: no such host" (by decide) rfl).2 _ rfl⟩

/-- Claim C4: for an empty or unrecognized ENV_PLATFORM and a failing
metadata probe, the final label is "local", the profile of the
constructed server is css "local", provider "local", and this fallback
never itself fails construction: every construction error comes from
one of the seven dependency resolutions. -/
theorem env_invalid_falls_back_local (we : WeaverEnv) (e : GoError)
    (h1 : we.envPlatform = "" ∨ stringinSlice validEnvs we.envPlatform = false)
    (h2 : we.lookupHost = .error e) :
    detectEnv we.envPlatform we.lookupHost = "local" ∧
    (∀ s, NewServer we = .ok s →
      s.platform = { css := "local", provider := "local" }) ∧
    (∀ e2, NewServer we = .error e2 →
      we.getCatalog = .error e2 ∨ we.getCurrency = .error e2 ∨
      we.getCart = .error e2 ∨ we.getRecommendation = .error e2 ∨
      we.getCheckout = .error e2 ∨ we.getShipping = .error e2 ∨
      we.getAd = .error e2) := by
  have hdet : detectEnv we.envPlatform we.lookupHost = "local" := by
    rw [h2]
    rcases h1 with h1 | h1 <;> simp [detectEnv, envStep1, h1]
  refine ⟨hdet, ?_, fun e2 he2 => newServer_error_from_gets we e2 he2⟩
  intro s hs
  obtain ⟨c, cu, ca, re, ch, sh, ad, -, -, -, -, -, -, -, rfl⟩ :=
    (newServer_eq_ok we s).1 hs
  simp [mkServer, hdet, setPlatformDetails, strToLower]

/-- Witness for claim C4, at `ENV_PLATFORM=aws` with a failing probe. -/
theorem env_invalid_falls_back_local_witness :
    detectEnv weBadEnv.envPlatform weBadEnv.lookupHost = "local" ∧
    (mkServer weBadEnv ⟨1⟩ ⟨2⟩ ⟨3⟩ ⟨4⟩ ⟨5⟩ ⟨6⟩ ⟨7⟩).platform
      = { css := "local", provider := "local" } :=
  ⟨(env_invalid_falls_back_local weBadEnv "lookup failed: no such host"
      (Or.inr (by decide)) rfl).1,
   (env_invalid_falls_back_local weBadEnv "lookup failed: no such host"
      (Or.inr (by decide)) rfl).2.1 _ rfl⟩

/-- Claim C5: the platform-profile builder is a pure total function of
the label: "gcp" yields css "gcp-platform" provider "Google Cloud",
every other label (including the empty string) yields css "local"
provider "local", and applying it twice to the same label yields
identical structs. -/
theorem setPlatformDetails_total_pure :
    setPlatformDetails "gcp" = { css := "gcp-platform", provider := "Google Cloud" } ∧
    (∀ label, label ≠ "gcp" →
      setPlatformDetails label = { css := "local", provider := "local" }) ∧
    (∀ label, setPlatformDetails label = setPlatformDetails label) := by
  refine ⟨rfl, ?_, fun _ => rfl⟩
  intro label h
  simp [setPlatformDetails, h]

/-- Witness for claim C5, at the empty-string label. -/
theorem setPlatformDetails_total_pure_witness :
    setPlatformDetails "" = { css := "local", provider := "local" } :=
  setPlatformDetails_total_pure.2.1 "" (by decide)

/-- Claim C6: the handler stored in the Server nests, innermost to
outermost, the base router, the session-assignment wrapper, the logging
wrapper and the tracing wrapper (tracing outermost). -/
theorem middleware_nesting_order (we : WeaverEnv) (s : Server)
    (h : NewServer we = .ok s) :
    s.handler = HttpHandler.otelHandler "http"
      (.logHandler (.ensureSessionID
        (.muxRouter (boutiqueRoutes (fsSub we.staticBundle "static"))))) := by
  obtain ⟨c, cu, ca, re, ch, sh, ad, -, -, -, -, -, -, -, rfl⟩ :=
    (newServer_eq_ok we s).1 h
  rfl

/-- Witness for claim C6, on the fully-resolved environment. -/
theorem middleware_nesting_order_witness :
    serverAllOk.handler = HttpHandler.otelHandler "http"
      (.logHandler (.ensureSessionID
        (.muxRouter (boutiqueRoutes (fsSub weAllOk.staticBundle "static"))))) :=
  middleware_nesting_order weAllOk serverAllOk rfl

/-- Claim C7: the route table has exactly one entry for "/healthz"; its
handler writes the fixed body "ok" and is not wrapped by the
instrumentation layer; every other registered route is wrapped by the
instrumentation layer, and the instrumentation labels are pairwise
distinct. -/
theorem healthz_uninstrumented_distinct_labels (we : WeaverEnv) (s : Server)
    (h : NewServer we = .ok s) :
    (s.handler.routesOf.map (fun r => r.pattern)) =
      ["/", "/product/{id}", "/cart", "/cart", "/cart/empty", "/setCurrency",
       "/logout", "/cart/checkout", "/static/", "/robots.txt", "/healthz"] ∧
    s.handler.routesOf.countP (fun r => r.pattern == "/healthz") = 1 ∧
    (∀ r ∈ s.handler.routesOf, r.pattern = "/healthz" →
      r.handler = .fixedBody "ok" ∧ instrLabel r.handler = none ∧
      ∀ p, r.handler.serve p = some "ok") ∧
    (∀ r ∈ s.handler.routesOf, r.pattern ≠ "/healthz" →
      ∃ label inner, r.handler = .instrumented label inner) ∧
    (s.handler.routesOf.filterMap (fun r => instrLabel r.handler)).Nodup := by
  obtain ⟨c, cu, ca, re, ch, sh, ad, -, -, -, -, -, -, -, rfl⟩ :=
    (newServer_eq_ok we s).1 h
  refine ⟨rfl, rfl, ?_, ?_, ?_⟩
  · intro r hr hpat
    simp only [mkServer, HttpHandler.routesOf, boutiqueRoutes, List.mem_cons,
      List.not_mem_nil, or_false] at hr
    rcases hr with rfl|rfl|rfl|rfl|rfl|rfl|rfl|rfl|rfl|rfl|rfl <;>
      simp_all [instrLabel, RouteHandler.serve]
  · intro r hr hpat
    simp only [mkServer, HttpHandler.routesOf, boutiqueRoutes, List.mem_cons,
      List.not_mem_nil, or_false] at hr
    rcases hr with rfl|rfl|rfl|rfl|rfl|rfl|rfl|rfl|rfl|rfl|rfl <;>
      first
        | exact ⟨_, _, rfl⟩
        | simp_all
  · show List.Nodup ["home", "product", "cart_view", "cart_add", "cart_empty",
      "setcurrency", "logout", "cart_checkout", "static", "robots"]
    decide

/-- Witness for claim C7, on the fully-resolved environment. -/
theorem healthz_uninstrumented_distinct_labels_witness :
    serverAllOk.handler.routesOf.countP (fun r => r.pattern == "/healthz") = 1 ∧
    (serverAllOk.handler.routesOf.filterMap (fun r => instrLabel r.handler)).Nodup :=
  ⟨(healthz_uninstrumented_distinct_labels weAllOk serverAllOk rfl).2.1,
   (healthz_uninstrumented_distinct_labels weAllOk serverAllOk rfl).2.2.2.2⟩

/-- Claim C8: the static route is instrumented under the label "static"
and strips the leading "/static/" before the file lookup: for every
asset name n, serving "/static/" ++ n yields exactly the bytes of the
asset named n in the embedded collection rooted at the "static"
subtree. -/
theorem static_route_serves_bundle (we : WeaverEnv) (s : Server)
    (h : NewServer we = .ok s) :
    ∃ r ∈ s.handler.routesOf,
      r.handler = .instrumented "static"
        (.stripServe "/static/" (.fileServer (fsSub we.staticBundle "static"))) ∧
      ∀ n, r.handler.serve ("/static/" ++ n) =
        (fsSub we.staticBundle "static").lookup n := by
  obtain ⟨c, cu, ca, re, ch, sh, ad, -, -, -, -, -, -, -, rfl⟩ :=
    (newServer_eq_ok we s).1 h
  refine ⟨{ pattern := "/static/", methods := [], subtree := true,
            handler := .instrumented "static" (.stripServe "/static/"
              (.fileServer (fsSub we.staticBundle "static"))) }, ?_, rfl, ?_⟩
  · simp [mkServer, HttpHandler.routesOf, boutiqueRoutes]
  · intro n
    simp [RouteHandler.serve, cutLeading_append]

/-- Witness for claim C8, on the fully-resolved environment, with the
concrete asset "a.txt" of the bundle served byte-identically. -/
theorem static_route_serves_bundle_witness :
    (∃ r ∈ serverAllOk.handler.routesOf,
      r.handler = .instrumented "static"
        (.stripServe "/static/" (.fileServer (fsSub weAllOk.staticBundle "static"))) ∧
      ∀ n, r.handler.serve ("/static/" ++ n) =
        (fsSub weAllOk.staticBundle "static").lookup n) ∧
    (fsSub weAllOk.staticBundle "static").lookup "a.txt" = some "alpha" :=
  ⟨static_route_serves_bundle weAllOk serverAllOk rfl, rfl⟩

/-- Claim C9: a failing hostname lookup sets the hostname field to the
sentinel "unknown" and never causes construction to fail: with the
seven resolutions succeeding, `NewServer` succeeds whatever the
hostname result is. -/
theorem hostname_fallback_best_effort (we : WeaverEnv) :
    (∀ e, we.hostnameRes = .error e → ∀ s, NewServer we = .ok s →
      s.hostname = "unknown") ∧
    ((∃ c, we.getCatalog = .ok c) → (∃ cu, we.getCurrency = .ok cu) →
     (∃ ca, we.getCart = .ok ca) → (∃ re, we.getRecommendation = .ok re) →
     (∃ ch, we.getCheckout = .ok ch) → (∃ sh, we.getShipping = .ok sh) →
     (∃ ad, we.getAd = .ok ad) → ∃ s, NewServer we = .ok s) := by
  constructor
  · rintro e he s hs
    obtain ⟨c, cu, ca, re, ch, sh, ad, -, -, -, -, -, -, -, rfl⟩ :=
      (newServer_eq_ok we s).1 hs
    simp [mkServer, he]
  · rintro ⟨c, hc⟩ ⟨cu, hcu⟩ ⟨ca, hca⟩ ⟨re, hre⟩ ⟨ch, hch⟩ ⟨sh, hsh⟩ ⟨ad, had⟩
    exact ⟨mkServer we c cu ca re ch sh ad,
      (newServer_eq_ok we _).2
        ⟨c, cu, ca, re, ch, sh, ad, hc, hcu, hca, hre, hch, hsh, had, rfl⟩⟩

/-- Witness for claim C9, on the environment whose hostname lookup
fails while all seven resolutions succeed. -/
theorem hostname_fallback_best_effort_witness :
    (mkServer weHostFail ⟨1⟩ ⟨2⟩ ⟨3⟩ ⟨4⟩ ⟨5⟩ ⟨6⟩ ⟨7⟩).hostname = "unknown" ∧
    (∃ s, NewServer weHostFail = .ok s) :=
  ⟨(hostname_fallback_best_effort weHostFail).1 "hostname: not found" rfl _ rfl,
   (hostname_fallback_best_effort weHostFail).2 ⟨⟨1⟩, rfl⟩ ⟨⟨2⟩, rfl⟩ ⟨⟨3⟩, rfl⟩
     ⟨⟨4⟩, rfl⟩ ⟨⟨5⟩, rfl⟩ ⟨⟨6⟩, rfl⟩ ⟨⟨7⟩, rfl⟩⟩

/-- Claim C10: dependency resolution proceeds in the order catalog,
currency, cart, recommendation, checkout, shipping, ad, and the first
failure's error is returned whatever the later resolutions would do
(they are unconstrained here, so nothing after the first failure can
influence the result). -/
theorem resolution_order_short_circuit (we : WeaverEnv) :
    (∀ e, we.getCatalog = .error e → NewServer we = .error e) ∧
    (∀ c e, we.getCatalog = .ok c → we.getCurrency = .error e →
      NewServer we = .error e) ∧
    (∀ c cu e, we.getCatalog = .ok c → we.getCurrency = .ok cu →
      we.getCart = .error e → NewServer we = .error e) ∧
    (∀ c cu ca e, we.getCatalog = .ok c → we.getCurrency = .ok cu →
      we.getCart = .ok ca → we.getRecommendation = .error e →
      NewServer we = .error e) ∧
    (∀ c cu ca re e, we.getCatalog = .ok c → we.getCurrency = .ok cu →
      we.getCart = .ok ca → we.getRecommendation = .ok re →
      we.getCheckout = .error e → NewServer we = .error e) ∧
    (∀ c cu ca re ch e, we.getCatalog = .ok c → we.getCurrency = .ok cu →
      we.getCart = .ok ca → we.getRecommendation = .ok re →
      we.getCheckout = .ok ch → we.getShipping = .error e →
      NewServer we = .error e) ∧
    (∀ c cu ca re ch sh e, we.getCatalog = .ok c → we.getCurrency = .ok cu →
      we.getCart = .ok ca → we.getRecommendation = .ok re →
      we.getCheckout = .ok ch → we.getShipping = .ok sh →
      we.getAd = .error e → NewServer we = .error e) := by
  refine ⟨?_, ?_, ?_, ?_, ?_, ?_, ?_⟩ <;>
    intros <;> simp_all [NewServer]

/-- Witness for claim C10: with the catalog resolved and both currency
and cart failing, construction returns the currency error, the first
failure in resolution order. -/
theorem resolution_order_short_circuit_witness :
    NewServer weCurrencyFail = .error "currency down" :=
  (resolution_order_short_circuit weCurrencyFail).2.1 ⟨1⟩ "currency down" rfl rfl

end Frontend
